import Mathlib

/-!
Verification of the dw3-g1-front front-end components
(`src/components/CreditCard/index.jsx`: the `CreditCard` display widget
and the `UpdateForm` account form).

JavaScript strings are embedded as `List Char`; the relevant JS string
primitives (`trim`, `replace(/_/gi, '')`, `substr`) are embedded below.
The asynchronous handlers are embedded as pure functions from the
outcomes of their awaited requests to the trace of observable events
(API calls, form writes, toasts, alerts, logout) they produce, in order.
-/

/-- JS `String.prototype.trim` whitespace class (ASCII part, which is all
that occurs in the inputs considered here). -/
def jsWhitespace (c : Char) : Bool :=
  c == ' ' || c == '\t' || c == '\n' || c == '\r' || c == '\x0b' || c == '\x0c'

/-- JS `s.trim()`: remove leading and trailing whitespace. -/
def jsTrim (s : List Char) : List Char :=
  ((s.dropWhile jsWhitespace).reverse.dropWhile jsWhitespace).reverse

/-- JS `s.replace(/_/gi, '')`: remove every underscore. -/
def stripUnderscores (s : List Char) : List Char :=
  s.filter (fun c => c != '_')

/-- JS `s.substr(start, len)` for non-negative `start`, `len`. -/
def jsSubstr (s : List Char) (start len : Nat) : List Char :=
  (s.drop start).take len

/-- JS `String(n)` applied to the (integral) JS number `n`. -/
def jsStringOfNumber (n : Int) : String :=
  toString n

/- ## The zod schema (`schema` in UpdateForm) -/

/-- The `schema.nome` refinement: `(name) => name.trim().length` (truthy). -/
def nomeRefine (name : List Char) : Bool :=
  (jsTrim name).length != 0

/-- The `schema.cep` refinement:
`(cep) => cep.trim().replace(/_/gi, '').length === 9`. -/
def cepRefine (cep : List Char) : Bool :=
  (stripUnderscores (jsTrim cep)).length == 9

/-- The `schema.telefone` refinement:
`(telefone) => telefone.trim().replace(/_/gi, '').length === 17`. -/
def telefoneRefine (telefone : List Char) : Bool :=
  (stripUnderscores (jsTrim telefone)).length == 17

/-- The `schema.senha` rule: `z.string().min(8, ...)`. -/
def senhaRule (senha : List Char) : Bool :=
  senha.length ≥ 8

/-- Validation of a provided `cep` value: `none` on success, the
field-specific zod message on failure. -/
def validateCep (cep : List Char) : Option String :=
  if cepRefine cep then none else some "Digite um CEP válido"

/-- Validation of a provided `telefone` value. -/
def validateTelefone (telefone : List Char) : Option String :=
  if telefoneRefine telefone then none else some "Digite um telefone válido"

/-- Validation of an optional `cep` field (`z....optional()`): an absent
value always passes. -/
def validateCepField : Option (List Char) → Option String
  | none => none
  | some cep => validateCep cep

/-- Validation of an optional `telefone` field. -/
def validateTelefoneField : Option (List Char) → Option String
  | none => none
  | some telefone => validateTelefone telefone

/- ## The CreditCard display component -/

/-- The three derived display strings rendered by `CreditCard`. -/
structure CreditCardView where
  cardNumberText : List Char
  expirationText : List Char
  cvvText : List Char
  deriving Repr, DecidableEq

/-- The `CreditCard` component: pure rendering of its three props.
`cardNumberText` is `numeroCartao.substr(0,4) + " " + numeroCartao.substr(4,4)
+ " " + numeroCartao.substr(8,4) + " " + numeroCartao.substr(12,4)`;
`expirationText` is `validadeCartao.substr(5, 5)`. -/
def CreditCard (numeroCartao validadeCartao cvcCartao : List Char) : CreditCardView :=
  { cardNumberText :=
      jsSubstr numeroCartao 0 4 ++ [' '] ++ jsSubstr numeroCartao 4 4
        ++ [' '] ++ jsSubstr numeroCartao 8 4 ++ [' '] ++ jsSubstr numeroCartao 12 4
    expirationText := jsSubstr validadeCartao 5 5
    cvvText := cvcCartao }

/- ## The UpdateForm component: errors, events and handler traces -/

/-- A JS error value caught by the handlers: either an `AppError`
(the application-level error class, carrying its message) or any other
error (`error instanceof AppError` is false). -/
inductive JsError where
  | app (message : String)
  | other (message : String)
  deriving Repr, DecidableEq

/-- JS `error instanceof AppError`. -/
def JsError.isAppError : JsError → Bool
  | .app _ => true
  | .other _ => false

/-- JS `error.message`. -/
def JsError.message : JsError → String
  | .app m => m
  | .other m => m

/-- A toast as produced by `showToast(title, description, true)`. -/
structure Toast where
  title : String
  description : String
  isError : Bool
  deriving Repr, DecidableEq

/-- The observable events an UpdateForm handler can emit, in order. -/
inductive Event where
  | apiGet (path : String)
  | apiPut (path : String)
  | apiDelete (path : String)
  | setValue (field : String) (value : String)
  | setIsLoading (b : Bool)
  | showToast (t : Toast)
  | windowAlert (msg : String)
  | consoleLog
  | windowConfirm (msg : String)
  | logout
  deriving Repr, DecidableEq

/-- The `data.cliente` payload of a successful `GET /conta` response. -/
structure Cliente where
  nome : String
  endereco : String
  cep : String
  numero : Int
  telefone : String
  deriving Repr, DecidableEq

/-- The catch-block of `handleAtualizarUsuario`: classify the caught
error and build the toast. -/
def updateErrorToast (error : JsError) : Toast :=
  let isAppError := error.isAppError
  { title := if isAppError then error.message else "Erro no servidor."
    description :=
      if isAppError then "Verifique os dados e tente novamente."
      else "Tente novamente mais tarde."
    isError := true }

/-- The catch-block of `handleDeletarConta` (textually duplicated in the
source): classify the caught error and build the toast. -/
def deleteErrorToast (error : JsError) : Toast :=
  let isAppError := error.isAppError
  { title := if isAppError then error.message else "Erro no servidor."
    description :=
      if isAppError then "Verifique os dados e tente novamente."
      else "Tente novamente mais tarde."
    isError := true }

/-- The function `loadAccountData`, as the trace of events it emits given the outcome
of `await api.get('/conta')`: `setIsLoading(true)`, the GET request, then
on success the five `setValue` writes (with `String(data.cliente.numero)`)
and `setIsLoading(false)`; on failure `alert(...)` and `console.log(...)`. -/
def loadAccountData (getResult : Except JsError Cliente) : List Event :=
  Event.setIsLoading true ::
  Event.apiGet "/conta" ::
  match getResult with
  | .ok data =>
      [ Event.setValue "nome" data.nome,
        Event.setValue "endereco" data.endereco,
        Event.setValue "cep" data.cep,
        Event.setValue "numero" (jsStringOfNumber data.numero),
        Event.setValue "telefone" data.telefone,
        Event.setIsLoading false ]
  | .error _ =>
      [ Event.windowAlert "Um erro ocorreu", Event.consoleLog ]

/-- The function `handleAtualizarUsuario(formData)`, as the trace of events it emits
given the outcome of `await api.put('/clientes', formData)` and, when the
PUT succeeds, the outcome of the `api.get('/conta')` inside the
`loadAccountData()` it then calls. -/
def handleAtualizarUsuario (putResult : Except JsError Unit)
    (getResult : Except JsError Cliente) : List Event :=
  Event.apiPut "/clientes" ::
  match putResult with
  | .ok _ => loadAccountData getResult
  | .error e => [Event.showToast (updateErrorToast e)]

/-- The function `handleDeletarConta()`, as the trace of events it emits given the
user's answer to `window.confirm(...)` and, when confirmed, the outcome
of `await api.delete('/clientes')`. -/
def handleDeletarConta (confirmed : Bool)
    (deleteResult : Except JsError Unit) : List Event :=
  Event.windowConfirm "Você deseja realmente apagar a conta?" ::
  if confirmed then
    Event.apiDelete "/clientes" ::
    match deleteResult with
    | .ok _ => [Event.logout]
    | .error e => [Event.showToast (deleteErrorToast e)]
  else []

/-- Count the occurrences of one event in a trace. -/
def countEvent (e : Event) (trace : List Event) : Nat :=
  (trace.filter (fun x => x == e)).length

/-- Is an event a `setValue` write to a form field? -/
def isSetValue : Event → Bool
  | .setValue _ _ => true
  | _ => false

/- ## The rendered UpdateForm and its submit button -/

/-- The relevant component state of `UpdateForm`: the `isLoading` state
variable and react-hook-form's `formState.isSubmitting` flag. -/
structure FormState where
  isLoading : Bool
  isSubmitting : Bool
  deriving Repr, DecidableEq

/-- What `UpdateForm` renders: the `Loading` component while
`isLoading`, otherwise the form section whose submit button carries
`disabled={isSubmitting}`. -/
inductive RenderedForm where
  | loadingView
  | formSection (submitButtonDisabled : Bool)
  deriving Repr, DecidableEq

/-- The render function of `UpdateForm`. -/
def renderUpdateForm (st : FormState) : RenderedForm :=
  if st.isLoading then .loadingView
  else .formSection st.isSubmitting

/-- A rendered view lets the user trigger a submit exactly when the
submit button is rendered and not disabled. -/
def canTriggerSubmit : RenderedForm → Bool
  | .loadingView => false
  | .formSection disabled => !disabled

/- ## Session model for the delete flow -/

/-- Modelled from the spec: `logout` comes from the authentication
context (`@contexts/AuthContext.jsx`, not part of the sources here);
per the spec it clears the session/authentication context, moving the
client to a logged-out state. A session is logged out after a trace iff
the trace invoked `logout`. -/
def sessionLoggedOut (trace : List Event) : Bool :=
  trace.contains Event.logout

/-- Modelled from the spec: in the logged-out state the client is
redirected away from the account form, so no further form action can be
triggered; form actions remain possible only while logged in. -/
def formActionsPossible (trace : List Event) : Bool :=
  !sessionLoggedOut trace

/-- Is an event a `showToast`? -/
def isShowToast : Event → Bool
  | .showToast _ => true
  | _ => false

/-- Spec-side reading of claim C1, following the spec's words: the input,
stripped of the mask placeholder character `_` and of the literal
non-digit characters of the postal-code mask `99999-999` (the hyphen),
must have exactly 8 characters (digits) left. To be compared with the
source-side `cepRefine`/`validateCep`. -/
def cepSpecValid (s : List Char) : Bool :=
  (s.filter (fun c => c != '_' && c != '-')).length == 8

/-- Spec-side reading of claim C1 for the phone field: stripped of `_`
and of the literal non-digit characters of the phone mask
`+55 99 99999-9999` (plus sign, spaces, hyphen), exactly 13 characters
(digits) must remain. -/
def telefoneSpecValid (s : List Char) : Bool :=
  (s.filter (fun c => c != '_' && c != '-' && c != '+' && c != ' ')).length == 13

/- ## Theorems -/

/-- C1 (counterexample): the input `"012345678"` (nine digits, no mask
characters at all) passes the code's cep validation, although after
removing mask placeholder and literal mask characters it has 9 digits,
not the 8 the claim requires — so validation passing is NOT equivalent
to the claimed digit-count condition. -/
theorem cep_passes_without_spec_digit_count :
    validateCep ("012345678".toList) = none
      ∧ cepSpecValid ("012345678".toList) = false := by
  decide

/-- C1 (amended): the cep (resp. phone) validation passes iff the input,
trimmed and stripped of the `_` placeholder, has length exactly 9
(resp. 17) — separators included, not a digit count — and otherwise
fails with the field-specific message. -/
theorem validate_length_only_with_message (s : List Char) :
    (validateCep s = none ↔ (stripUnderscores (jsTrim s)).length = 9)
    ∧ (validateCep s = some "Digite um CEP válido"
        ↔ (stripUnderscores (jsTrim s)).length ≠ 9)
    ∧ (validateTelefone s = none ↔ (stripUnderscores (jsTrim s)).length = 17)
    ∧ (validateTelefone s = some "Digite um telefone válido"
        ↔ (stripUnderscores (jsTrim s)).length ≠ 17) := by
  unfold validateCep validateTelefone cepRefine telefoneRefine
  by_cases h9 : (stripUnderscores (jsTrim s)).length = 9 <;>
    by_cases h17 : (stripUnderscores (jsTrim s)).length = 17 <;>
      simp [h9, h17]

/-- C2: both `handleAtualizarUsuario` and `handleDeletarConta` classify a
caught error the same way: for an `AppError` the toast title is the
error's own message and the description the remediation hint; otherwise
the generic server-error title and try-again-later description; and on
failure each handler shows exactly that one toast. -/
theorem error_toast_classification (e : JsError) (gr : Except JsError Cliente) :
    updateErrorToast e = deleteErrorToast e
    ∧ (e.isAppError = true →
        (updateErrorToast e).title = e.message
          ∧ (updateErrorToast e).description = "Verifique os dados e tente novamente.")
    ∧ (e.isAppError = false →
        (updateErrorToast e).title = "Erro no servidor."
          ∧ (updateErrorToast e).description = "Tente novamente mais tarde.")
    ∧ (handleAtualizarUsuario (.error e) gr).filter isShowToast
        = [Event.showToast (updateErrorToast e)]
    ∧ (handleDeletarConta true (.error e)).filter isShowToast
        = [Event.showToast (deleteErrorToast e)] := by
  cases e <;>
    simp [updateErrorToast, deleteErrorToast, JsError.isAppError, JsError.message,
      handleAtualizarUsuario, handleDeletarConta, isShowToast]

/-- Witness for C2 at the concrete application error
`AppError "Conta inválida"`. -/
theorem error_toast_classification_witness :
    (updateErrorToast (.app "Conta inválida")).title = "Conta inválida" :=
  ((error_toast_classification (.app "Conta inválida")
      (.ok ⟨"", "", "", 0, ""⟩)).2.1 rfl).1

/-- C3 (counterexample): on a successful read, `loadAccountData` issues
exactly five `setValue` writes, not six, at this concrete payload. -/
theorem load_success_sets_five_not_six :
    ((loadAccountData (.ok ⟨"Ana", "Rua A", "01234-567", 42,
        "+55 11 99999-9999"⟩)).filter isSetValue).length = 5
    ∧ ¬ ((loadAccountData (.ok ⟨"Ana", "Rua A", "01234-567", 42,
        "+55 11 99999-9999"⟩)).filter isSetValue).length = 6 := by
  decide

/-- C3 (amended): on every successful response, `loadAccountData`
populates exactly the five form fields `nome`, `endereco`, `cep`,
`numero`, `telefone` from the payload, the numeric house-number value
coerced to a text string. -/
theorem load_success_populates_five_fields (data : Cliente) :
    (loadAccountData (.ok data)).filter isSetValue
      = [ Event.setValue "nome" data.nome,
          Event.setValue "endereco" data.endereco,
          Event.setValue "cep" data.cep,
          Event.setValue "numero" (jsStringOfNumber data.numero),
          Event.setValue "telefone" data.telefone ] := by
  rfl

/-- C4: for every 16-character numeric card number, the rendered card
number text is the four 4-character slices at positions 0–3, 4–7, 8–11
and 12–15 joined by single spaces, each group of length 4, the whole of
length 19. -/
theorem card_number_formatting (n v c : List Char)
    (h16 : n.length = 16) (_hdigits : ∀ ch ∈ n, ch.isDigit = true) :
    (CreditCard n v c).cardNumberText
      = n.take 4 ++ [' '] ++ (n.drop 4).take 4 ++ [' ']
          ++ (n.drop 8).take 4 ++ [' '] ++ (n.drop 12).take 4
    ∧ (n.take 4).length = 4
    ∧ ((n.drop 4).take 4).length = 4
    ∧ ((n.drop 8).take 4).length = 4
    ∧ ((n.drop 12).take 4).length = 4
    ∧ ((CreditCard n v c).cardNumberText).length = 19 := by
  refine ⟨rfl, ?_, ?_, ?_, ?_, ?_⟩ <;>
    simp [CreditCard, jsSubstr, List.length_take, List.length_drop, h16]

/-- Witness for C4 at the concrete card number `"1234567812345678"`. -/
theorem card_number_formatting_witness :
    ((CreditCard ("1234567812345678".toList) [] []).cardNumberText).length = 19 :=
  (card_number_formatting ("1234567812345678".toList) [] []
    (by decide) (by decide)).2.2.2.2.2

/-- C5: when the PUT succeeds, `handleAtualizarUsuario` issues exactly
one `GET /conta` (whatever that reload's own outcome); when the PUT
fails, it issues none. -/
theorem put_success_reloads_once (gr : Except JsError Cliente) (e : JsError) :
    countEvent (Event.apiGet "/conta") (handleAtualizarUsuario (.ok ()) gr) = 1
    ∧ countEvent (Event.apiGet "/conta") (handleAtualizarUsuario (.error e) gr) = 0 := by
  cases gr <;>
    simp [handleAtualizarUsuario, loadAccountData, countEvent, updateErrorToast]

/-- C6: when confirmation is given and the DELETE succeeds, logout is
invoked exactly once and afterwards no form action is possible; logout
is never invoked when the DELETE fails or confirmation is declined. -/
theorem delete_success_logs_out_once (e : JsError) (r : Except JsError Unit) :
    countEvent Event.logout (handleDeletarConta true (.ok ())) = 1
    ∧ formActionsPossible (handleDeletarConta true (.ok ())) = false
    ∧ countEvent Event.logout (handleDeletarConta true (.error e)) = 0
    ∧ formActionsPossible (handleDeletarConta true (.error e)) = true
    ∧ countEvent Event.logout (handleDeletarConta false r) = 0
    ∧ formActionsPossible (handleDeletarConta false r) = true := by
  cases r <;>
    simp [handleDeletarConta, countEvent, formActionsPossible,
      sessionLoggedOut, deleteErrorToast]

/-- C7: the postal-code input `"01234-567"` passes validation, while
`"1234-56"` fails with the CEP-specific message. -/
theorem cep_examples :
    validateCep ("01234-567".toList) = none
    ∧ validateCep ("1234-56".toList) = some "Digite um CEP válido" := by
  decide

/-- C8: in every state with a submit in flight (`isSubmitting`), the
rendered form does not let the user trigger a submit: either the loading
view is shown, or the submit button is rendered disabled. -/
theorem submitting_disables_submit_button (st : FormState)
    (h : st.isSubmitting = true) :
    canTriggerSubmit (renderUpdateForm st) = false := by
  unfold renderUpdateForm canTriggerSubmit
  by_cases hl : st.isLoading <;> simp [hl, h]

/-- Witness for C8 at the ready-and-submitting state. -/
theorem submitting_disables_submit_button_witness :
    canTriggerSubmit (renderUpdateForm ⟨false, true⟩) = false :=
  submitting_disables_submit_button ⟨false, true⟩ rfl

/-- C9: when the PUT fails, `handleAtualizarUsuario` writes no form
field, issues no reload, and its whole trace is the PUT followed by the
one error toast. -/
theorem update_failure_changes_nothing (e : JsError) (gr : Except JsError Cliente) :
    (handleAtualizarUsuario (.error e) gr).filter isSetValue = []
    ∧ countEvent (Event.apiGet "/conta") (handleAtualizarUsuario (.error e) gr) = 0
    ∧ handleAtualizarUsuario (.error e) gr
        = [Event.apiPut "/clientes", Event.showToast (updateErrorToast e)] :=
  ⟨rfl, rfl, rfl⟩

/-- C10 (counterexample): `" bcdefghi"` is a 9-character underscore-free
string, yet it fails the postal-code validation (its leading whitespace
is trimmed before the length check). -/
theorem cep_nine_chars_no_underscore_fails :
    (" bcdefghi".toList).length = 9
    ∧ ('_' ∉ " bcdefghi".toList)
    ∧ validateCep (" bcdefghi".toList) = some "Digite um CEP válido" := by
  decide

/-- C10 (amended): the cep and phone validations look only at the
character count after trimming and removing underscores — two inputs
with the same stripped length validate identically — and any
9-character (resp. 17-character) string free of underscores and of
leading/trailing whitespace passes, e.g. `"abcdefghi"`. -/
theorem validation_is_content_blind :
    (∀ s t : List Char,
      (stripUnderscores (jsTrim s)).length = (stripUnderscores (jsTrim t)).length →
        validateCep s = validateCep t ∧ validateTelefone s = validateTelefone t)
    ∧ (∀ s : List Char, jsTrim s = s → '_' ∉ s → s.length = 9 →
        validateCep s = none)
    ∧ (∀ s : List Char, jsTrim s = s → '_' ∉ s → s.length = 17 →
        validateTelefone s = none)
    ∧ validateCep ("abcdefghi".toList) = none := by
  have hstrip : ∀ s : List Char, '_' ∉ s → stripUnderscores s = s := by
    intro s hu
    refine List.filter_eq_self.mpr ?_
    intro a ha
    simp only [bne_iff_ne, ne_eq]
    intro hc
    exact hu (hc ▸ ha)
  refine ⟨?_, ?_, ?_, by decide⟩
  · intro s t h
    constructor <;>
      simp [validateCep, validateTelefone, cepRefine, telefoneRefine, h]
  · intro s htrim hu h9
    simp [validateCep, cepRefine, htrim, hstrip s hu, h9]
  · intro s htrim hu h17
    simp [validateTelefone, telefoneRefine, htrim, hstrip s hu, h17]

/-- Witness for C10 (amended) at the concrete input `"bcdefghia"`. -/
theorem validation_is_content_blind_witness :
    validateCep ("bcdefghia".toList) = none :=
  validation_is_content_blind.2.1 ("bcdefghia".toList)
    (by decide) (by decide) (by decide)
